import Mathlib

/-!
A verification development for the football-club bookkeeping bot
(`database.py` and the reminder scan of `bot.py`).

The SQLite store is embedded shallowly: each table is a list of rows in
insertion (rowid) order, `AUTOINCREMENT` primary keys are explicit
counters, and each Python method of the `Database` class becomes a pure
Lean function from the old state to its return value and the new state.
`REAL` currency columns are modelled as exact rationals, timestamps as
seconds (the `matches.datetime` column stores text at minute
granularity, so a scheduled time is a whole number of minutes).
-/

namespace FootballBot

/-- Row of the clubs table: clubs(id, guild_id, name, budget). -/
structure Club where
  id : Nat
  guildId : Int
  name : String
  budget : ℚ
  deriving DecidableEq

/-- Row of the players table: players(id, guild_id, name, club_id, value,
position, age, contract_end).  The club reference is nullable
(`ON DELETE SET NULL`): a player with clubId none is a free agent. -/
structure Player where
  id : Nat
  guildId : Int
  name : String
  clubId : Option Nat
  value : ℚ
  position : String
  age : Nat
  contractEnd : Nat
  deriving DecidableEq

/-- Row of the matches table: matches(id, guild_id, team1_id, team2_id,
datetime, description, reminder_sent).  The datetime text column holds a
minute-granular timestamp, modelled as minutes since the epoch. -/
structure MatchRow where
  id : Nat
  guildId : Int
  team1Id : Int
  team2Id : Int
  schedMin : Nat
  description : String
  reminder_sent : Bool
  deriving DecidableEq

/-- Row of the transfers history table. -/
structure TransferRec where
  id : Nat
  guildId : Int
  playerName : String
  fromClub : String
  toClub : String
  fee : ℚ
  adminId : Int
  date : Nat
  deriving DecidableEq

/-- Row of the bot_settings table. -/
structure SettingRow where
  id : Nat
  guildId : Int
  settingName : String
  settingValue : String
  deriving DecidableEq

/-- The whole SQLite database: five tables in rowid order plus the
AUTOINCREMENT counters. -/
structure DB where
  clubs : List Club
  players : List Player
  matchRows : List MatchRow
  transfers : List TransferRec
  settings : List SettingRow
  nextClubId : Nat
  nextPlayerId : Nat
  nextMatchId : Nat
  nextTransferId : Nat
  deriving DecidableEq

/-- The freshly initialised database: all five tables empty. -/
def emptyDB : DB :=
  { clubs := [], players := [], matchRows := [], transfers := [], settings := []
    nextClubId := 0, nextPlayerId := 0, nextMatchId := 0, nextTransferId := 0 }

/-- Stable insertion used to model an ORDER BY clause: x is inserted
after every already-placed row y with keep y x = true. -/
def insertKeep (keep : α → α → Bool) (x : α) : List α → List α
  | [] => [x]
  | y :: ys => if keep y x then y :: insertKeep keep x ys else x :: y :: ys

/-- Stable sort used to model an ORDER BY clause: rows are emitted in
key order, rows with equal keys in insertion order. -/
def sortKeep (keep : α → α → Bool) : List α → List α
  | [] => []
  | x :: xs => insertKeep keep x (sortKeep keep xs)

/-- Comparison for ORDER BY budget DESC (an earlier row keeps its place
unless the inserted row's budget is strictly larger). -/
def keepByBudget (y x : Club) : Bool := x.budget < y.budget

/-- Comparison for ORDER BY value DESC on joined player rows. -/
def keepByValue (y x : Player × Option String) : Bool := x.1.value < y.1.value

/-- Comparison for ORDER BY datetime ASC on matches. -/
def keepBySched (y x : MatchRow) : Bool := y.schedMin < x.schedMin

/-- Comparison for ORDER BY date DESC on transfer records. -/
def keepByDate (y x : TransferRec) : Bool := x.date < y.date

/-- get_club_by_name: SELECT * FROM clubs WHERE guild_id = ? AND name = ?
(first row in rowid order; the schema makes it unique). -/
def get_club_by_name (db : DB) (g : Int) (n : String) : Option Club :=
  db.clubs.find? (fun c => c.guildId == g && c.name == n)

/-- create_club: INSERT INTO clubs (guild_id, name, budget); an
IntegrityError on the UNIQUE(guild_id, name) constraint is caught and
reported as False with the state unchanged. -/
def create_club (db : DB) (g : Int) (n : String) (b : ℚ) : Bool × DB :=
  if db.clubs.any (fun c => c.guildId == g && c.name == n) then
    (false, db)
  else
    (true, { db with
      clubs := db.clubs ++ [⟨db.nextClubId, g, n, b⟩]
      nextClubId := db.nextClubId + 1 })

/-- delete_club: looks the club up by (guild_id, name); if absent returns
False, else sets club_id to NULL on the club's players and deletes the
club row. -/
def delete_club (db : DB) (g : Int) (n : String) : Bool × DB :=
  match get_club_by_name db g n with
  | none => (false, db)
  | some club =>
    (true, { db with
      players := db.players.map (fun p =>
        if p.clubId == some club.id then { p with clubId := none } else p)
      clubs := db.clubs.filter (fun c => c.id != club.id) })

/-- get_clubs: SELECT * FROM clubs WHERE guild_id = ? ORDER BY budget DESC. -/
def get_clubs (db : DB) (g : Int) : List Club :=
  sortKeep keepByBudget (db.clubs.filter (fun c => c.guildId == g))

/-- update_club_budget: UPDATE clubs SET budget = ? WHERE guild_id = ?
AND name = ?; returns rowcount > 0. -/
def update_club_budget (db : DB) (g : Int) (n : String) (b : ℚ) : Bool × DB :=
  (db.clubs.any (fun c => c.guildId == g && c.name == n),
   { db with clubs := db.clubs.map (fun c =>
       if c.guildId == g && c.name == n then { c with budget := b } else c) })

/-- add_player: inserts a player into an existing club with contract end
two years (730 days) from the current day; fails if the club is absent
or the UNIQUE(guild_id, name) constraint fires. -/
def add_player (db : DB) (g : Int) (n : String) (clubName : String)
    (value : ℚ) (position : String) (age : Nat) (nowDay : Nat) : Bool × DB :=
  match get_club_by_name db g clubName with
  | none => (false, db)
  | some club =>
    if db.players.any (fun p => p.guildId == g && p.name == n) then
      (false, db)
    else
      (true, { db with
        players := db.players ++
          [⟨db.nextPlayerId, g, n, some club.id, value, position, age, nowDay + 730⟩]
        nextPlayerId := db.nextPlayerId + 1 })

/-- remove_player: DELETE FROM players WHERE guild_id = ? AND name = ?;
returns rowcount > 0. -/
def remove_player (db : DB) (g : Int) (n : String) : Bool × DB :=
  (db.players.any (fun p => p.guildId == g && p.name == n),
   { db with players := db.players.filter (fun p =>
       !(p.guildId == g && p.name == n)) })

/-- transfer_player: fetches both clubs by name; fails if either is
missing or the destination budget is below the fee; then updates the
player row conditioned on the player still being in the source club
(rowcount 0 means failure with nothing changed), and finally adds the
fee to the source budget and subtracts it from the destination budget. -/
def transfer_player (db : DB) (g : Int) (playerName fromClub toClub : String)
    (fee : ℚ) : Bool × DB :=
  match get_club_by_name db g fromClub, get_club_by_name db g toClub with
  | some fromC, some toC =>
    if toC.budget < fee then (false, db)
    else if db.players.any (fun p =>
        p.guildId == g && p.name == playerName && p.clubId == some fromC.id) then
      (true, { db with
        players := db.players.map (fun p =>
          if p.guildId == g && p.name == playerName && p.clubId == some fromC.id
          then { p with clubId := some toC.id } else p)
        clubs := (db.clubs.map (fun c =>
            if c.id == fromC.id then { c with budget := c.budget + fee } else c)).map
          (fun c => if c.id == toC.id then { c with budget := c.budget - fee } else c) })
    else (false, db)
  | _, _ => (false, db)

/-- Joined row returned by the player list queries: the player columns
plus the LEFT JOIN club name (none for a free agent). -/
def joinClubName (db : DB) (p : Player) : Player × Option String :=
  (p, (db.clubs.find? (fun c => some c.id == p.clubId)).map (fun c => c.name))

/-- get_all_players: SELECT p.*, c.name FROM players p LEFT JOIN clubs c
ON p.club_id = c.id WHERE p.guild_id = ? ORDER BY p.value DESC. -/
def get_all_players (db : DB) (g : Int) : List (Player × Option String) :=
  sortKeep keepByValue ((db.players.filter (fun p => p.guildId == g)).map (joinClubName db))

/-- create_match: INSERT INTO matches with reminder_sent defaulting to
FALSE; returns the fresh rowid. -/
def create_match (db : DB) (g : Int) (t1 t2 : Int) (schedMin : Nat)
    (description : String) : Option Nat × DB :=
  (some db.nextMatchId,
   { db with
     matchRows := db.matchRows ++ [⟨db.nextMatchId, g, t1, t2, schedMin, description, false⟩]
     nextMatchId := db.nextMatchId + 1 })

/-- get_upcoming_matches: SELECT * FROM matches WHERE datetime > now
ORDER BY datetime ASC, optionally filtered by guild.  The python guard
is `if guild_id:`, so both None and the falsy id 0 select all guilds.
The comparison is between minute-granular datetime strings, so it
compares the scheduled minute against the current minute now / 60
(now in seconds). -/
def get_upcoming_matches (db : DB) (gOpt : Option Int) (now : Nat) : List MatchRow :=
  let upcoming := db.matchRows.filter (fun m => now / 60 < m.schedMin)
  match gOpt with
  | some g =>
    if g ≠ 0 then sortKeep keepBySched (upcoming.filter (fun m => m.guildId == g))
    else sortKeep keepBySched upcoming
  | none => sortKeep keepBySched upcoming

/-- Reminder scan of bot.match_reminder: over the upcoming matches (all
guilds), it selects those with 4 <= (sched - now)/60 <= 6 minutes to go
and reminder_sent false; now is in seconds and the scheduled time is
schedMin * 60 seconds. -/
def dueForReminder (db : DB) (now : Nat) : List MatchRow :=
  (get_upcoming_matches db none now).filter (fun m =>
    4 * 60 ≤ (m.schedMin * 60 : Int) - (now : Int)
      && (m.schedMin * 60 : Int) - (now : Int) ≤ 6 * 60
      && !m.reminder_sent)

/-- mark_reminder_sent: UPDATE matches SET reminder_sent = TRUE WHERE id = ?. -/
def mark_reminder_sent (db : DB) (matchId : Nat) : DB :=
  { db with matchRows := db.matchRows.map (fun m =>
      if m.id == matchId then { m with reminder_sent := true } else m) }

/-- log_transfer: INSERT INTO transfers (append-only history). -/
def log_transfer (db : DB) (g : Int) (playerName fromClub toClub : String)
    (fee : ℚ) (adminId : Int) (date : Nat) : DB :=
  { db with
    transfers := db.transfers ++
      [⟨db.nextTransferId, g, playerName, fromClub, toClub, fee, adminId, date⟩]
    nextTransferId := db.nextTransferId + 1 }

/-- get_transfer_history: SELECT * FROM transfers WHERE guild_id = ?
ORDER BY date DESC LIMIT ?. -/
def get_transfer_history (db : DB) (g : Int) (limit : Nat) : List TransferRec :=
  (sortKeep keepByDate (db.transfers.filter (fun t => t.guildId == g))).take limit

/-- Settings rows of one guild (the bot_settings table has no dedicated
reader in the source; this is the raw table content for the guild). -/
def settings_rows (db : DB) (g : Int) : List SettingRow :=
  db.settings.filter (fun s => s.guildId == g)

/-- reset_all_data: deletes the guild's rows from transfers, matches,
players, clubs and bot_settings, in that order, in one transaction. -/
def reset_all_data (db : DB) (g : Int) : DB :=
  let db1 := { db with transfers := db.transfers.filter (fun t => !(t.guildId == g)) }
  let db2 := { db1 with matchRows := db1.matchRows.filter (fun m => !(m.guildId == g)) }
  let db3 := { db2 with players := db2.players.filter (fun p => !(p.guildId == g)) }
  let db4 := { db3 with clubs := db3.clubs.filter (fun c => !(c.guildId == g)) }
  { db4 with settings := db4.settings.filter (fun s => !(s.guildId == g)) }

/-- Club reference of the (unique) player with the given guild and name:
none if the player is absent or a free agent. -/
def player_club_ref (db : DB) (g : Int) (n : String) : Option Nat :=
  (db.players.find? (fun p => p.guildId == g && p.name == n)).bind (fun p => p.clubId)

/-- Budget of the club with the given guild and name, when it exists. -/
def get_club_budget (db : DB) (g : Int) (n : String) : Option ℚ :=
  (get_club_by_name db g n).map (fun c => c.budget)

/-- PRIMARY KEY invariant of the clubs table: rowids are pairwise
distinct. -/
abbrev ClubIdsUnique (db : DB) : Prop :=
  (db.clubs.map (fun c => c.id)).Nodup

/-- UNIQUE(guild_id, name) invariant of the clubs table. -/
abbrev ClubNamesUnique (db : DB) : Prop :=
  (db.clubs.map (fun c => (c.guildId, c.name))).Nodup

/-- UNIQUE(guild_id, name) invariant of the players table. -/
abbrev PlayerNamesUnique (db : DB) : Prop :=
  (db.players.map (fun p => (p.guildId, p.name))).Nodup

/-! Helper lemmas about the ORDER BY model and row lookups. -/

theorem insertKeep_perm (keep : α → α → Bool) (x : α) (l : List α) :
    List.Perm (insertKeep keep x l) (x :: l) := by
  induction l with
  | nil => exact List.Perm.refl _
  | cons y ys ih =>
    simp only [insertKeep]
    by_cases h : keep y x
    · simp only [h, if_true]
      exact (ih.cons y).trans (List.Perm.swap x y ys)
    · simp only [h, if_false]
      exact List.Perm.refl _

theorem sortKeep_perm (keep : α → α → Bool) (l : List α) :
    List.Perm (sortKeep keep l) l := by
  induction l with
  | nil => exact List.Perm.refl _
  | cons x xs ih => exact (insertKeep_perm keep x (sortKeep keep xs)).trans (ih.cons x)

theorem mem_sortKeep {keep : α → α → Bool} {x : α} {l : List α} :
    x ∈ sortKeep keep l ↔ x ∈ l :=
  (sortKeep_perm keep l).mem_iff

theorem countP_sortKeep (keep : α → α → Bool) (p : α → Bool) (l : List α) :
    (sortKeep keep l).countP p = l.countP p :=
  (sortKeep_perm keep l).countP_eq p

theorem sortKeep_nil_iff {keep : α → α → Bool} {l : List α} :
    sortKeep keep l = [] ↔ l = [] := by
  constructor
  · intro h
    have hp := sortKeep_perm keep l
    rw [h] at hp
    exact hp.symm.eq_nil
  · intro h
    rw [h]
    rfl

theorem find?_map_eq (f : α → α) (p : α → Bool) (l : List α)
    (hp : ∀ a, p (f a) = p a) : (l.map f).find? p = (l.find? p).map f := by
  induction l with
  | nil => rfl
  | cons a as ih =>
    simp only [List.map_cons, List.find?_cons]
    rw [hp a]
    cases h : p a
    · exact ih
    · rfl

theorem find?_filter_eq (p q : α → Bool) (l : List α)
    (h : ∀ a ∈ l, p a = true → q a = true) :
    (l.filter q).find? p = l.find? p := by
  induction l with
  | nil => rfl
  | cons a as ih =>
    have ih' := ih (fun b hb => h b (List.mem_cons_of_mem a hb))
    by_cases hq : q a = true
    · rw [List.filter_cons_of_pos hq]
      simp only [List.find?_cons]
      cases hp : p a
      · exact ih'
      · rfl
    · have hp : p a = false := by
        cases hpa : p a
        · rfl
        · exact absurd (h a (List.mem_cons_self a as) hpa) hq
      rw [List.filter_cons_of_neg (by simp [hq])]
      simp only [List.find?_cons, hp]
      exact ih'

theorem get_club_by_name_found {db : DB} {g : Int} {n : String} {c : Club}
    (h : get_club_by_name db g n = some c) :
    c ∈ db.clubs ∧ c.guildId = g ∧ c.name = n := by
  simp only [get_club_by_name] at h
  refine ⟨List.mem_of_find?_eq_some h, ?_⟩
  have hp := List.find?_some h
  simp only [Bool.and_eq_true, beq_iff_eq] at hp
  exact hp

theorem club_ids_ne {db : DB} {g : Int} {red blue : String} {rc bc : Club}
    (hids : ClubIdsUnique db) (hne : red ≠ blue)
    (hr : get_club_by_name db g red = some rc)
    (hb : get_club_by_name db g blue = some bc) : rc.id ≠ bc.id := by
  intro hid
  obtain ⟨hrm, -, hrn⟩ := get_club_by_name_found hr
  obtain ⟨hbm, -, hbn⟩ := get_club_by_name_found hb
  have : rc = bc := List.inj_on_of_nodup_map hids hrm hbm hid
  exact hne (by rw [← hrn, this, hbn])

theorem player_any_iff_ref {db : DB} {g : Int} {p : String} {cid : Nat}
    (hpn : PlayerNamesUnique db) :
    db.players.any (fun q =>
        q.guildId == g && q.name == p && q.clubId == some cid) = true
      ↔ player_club_ref db g p = some cid := by
  constructor
  · intro h
    obtain ⟨q, hq, hcond⟩ := List.any_eq_true.mp h
    simp only [Bool.and_eq_true, beq_iff_eq] at hcond
    obtain ⟨⟨hg, hn⟩, hc⟩ := hcond
    simp only [player_club_ref]
    cases hfind : db.players.find? (fun r => r.guildId == g && r.name == p) with
    | none =>
      have := List.find?_eq_none.mp hfind q hq
      simp only [Bool.and_eq_true, beq_iff_eq] at this
      exact absurd ⟨hg, hn⟩ this
    | some r =>
      have hrm := List.mem_of_find?_eq_some hfind
      have hrp := List.find?_some hfind
      simp only [Bool.and_eq_true, beq_iff_eq] at hrp
      have : r = q := by
        apply List.inj_on_of_nodup_map hpn hrm hq
        rw [hrp.1, hrp.2, hg, hn]
      simp [this, hc]
  · intro h
    simp only [player_club_ref] at h
    cases hfind : db.players.find? (fun r => r.guildId == g && r.name == p) with
    | none => rw [hfind] at h; exact absurd h (by simp)
    | some r =>
      rw [hfind] at h
      have h : r.clubId = some cid := h
      have hrm := List.mem_of_find?_eq_some hfind
      have hrp := List.find?_some hfind
      apply List.any_eq_true.mpr
      refine ⟨r, hrm, ?_⟩
      simp only [Bool.and_eq_true, beq_iff_eq] at hrp ⊢
      exact ⟨⟨hrp.1, hrp.2⟩, h⟩

theorem transfer_success_iff_raw {db : DB} {g : Int} {p red blue : String}
    {f : ℚ} {rc bc : Club}
    (hr : get_club_by_name db g red = some rc)
    (hb : get_club_by_name db g blue = some bc) :
    (transfer_player db g p red blue f).1 = true ↔
      f ≤ bc.budget ∧ db.players.any (fun q =>
        q.guildId == g && q.name == p && q.clubId == some rc.id) = true := by
  simp only [transfer_player, hr, hb]
  by_cases h1 : bc.budget < f
  · simp [h1, not_le.mpr h1]
  · by_cases h2 : db.players.any (fun q =>
        q.guildId == g && q.name == p && q.clubId == some rc.id) = true
    · simp [h1, h2, not_lt.mp h1]
    · simp [h1, h2]

theorem transfer_fail_state {db : DB} {g : Int} {p red blue : String} {f : ℚ}
    (h : (transfer_player db g p red blue f).1 = false) :
    transfer_player db g p red blue f = (false, db) := by
  simp only [transfer_player] at h ⊢
  cases hr : get_club_by_name db g red with
  | none => rfl
  | some rc =>
    cases hb : get_club_by_name db g blue with
    | none => rfl
    | some bc =>
      rw [hr, hb] at h
      by_cases h1 : bc.budget < f
      · simp [h1]
      · by_cases h2 : db.players.any (fun q =>
            q.guildId == g && q.name == p && q.clubId == some rc.id) = true
        · simp [h1, h2] at h
        · simp [h1, h2]

theorem transfer_state_eq {db : DB} {g : Int} {p red blue : String}
    {f : ℚ} {rc bc : Club}
    (hr : get_club_by_name db g red = some rc)
    (hb : get_club_by_name db g blue = some bc)
    (hs : (transfer_player db g p red blue f).1 = true) :
    (transfer_player db g p red blue f).2 = { db with
      players := db.players.map (fun q =>
        if q.guildId == g && q.name == p && q.clubId == some rc.id
        then { q with clubId := some bc.id } else q)
      clubs := (db.clubs.map (fun c =>
          if c.id == rc.id then { c with budget := c.budget + f } else c)).map
        (fun c => if c.id == bc.id then { c with budget := c.budget - f } else c) } := by
  simp only [transfer_player, hr, hb] at hs ⊢
  by_cases h1 : bc.budget < f
  · simp [h1] at hs
  · by_cases h2 : db.players.any (fun q =>
        q.guildId == g && q.name == p && q.clubId == some rc.id) = true
    · simp [h1, h2]
    · simp [h1, h2] at hs

theorem pred_budget_update (g : Int) (n : String) (i : Nat) (amt : Club → ℚ)
    (a : Club) :
    ((if a.id == i then { a with budget := amt a } else a).guildId == g &&
     (if a.id == i then { a with budget := amt a } else a).name == n)
      = (a.guildId == g && a.name == n) := by
  by_cases h : (a.id == i) = true <;> simp [h]

theorem transfer_budget_after {db : DB} {g : Int} {p red blue : String}
    {f : ℚ} {rc bc : Club}
    (hids : ClubIdsUnique db) (hne : red ≠ blue)
    (hr : get_club_by_name db g red = some rc)
    (hb : get_club_by_name db g blue = some bc)
    (hs : (transfer_player db g p red blue f).1 = true) :
    get_club_budget (transfer_player db g p red blue f).2 g red
        = some (rc.budget + f) ∧
    get_club_budget (transfer_player db g p red blue f).2 g blue
        = some (bc.budget - f) := by
  have hstate := transfer_state_eq hr hb hs
  have hidne := club_ids_ne hids hne hr hb
  simp only [get_club_by_name] at hr hb
  rw [hstate]
  simp only [get_club_budget, get_club_by_name]
  rw [find?_map_eq _ _ _ (fun a => pred_budget_update g red bc.id (fun c => c.budget - f) a),
      find?_map_eq _ _ _ (fun a => pred_budget_update g red rc.id (fun c => c.budget + f) a),
      find?_map_eq _ _ _ (fun a => pred_budget_update g blue bc.id (fun c => c.budget - f) a),
      find?_map_eq _ _ _ (fun a => pred_budget_update g blue rc.id (fun c => c.budget + f) a),
      hr, hb]
  constructor
  · simp [beq_iff_eq, hidne]
  · simp [beq_iff_eq, Ne.symm hidne]

theorem transfer_player_ref_after {db : DB} {g : Int} {p red blue : String}
    {f : ℚ} {rc bc : Club}
    (hpn : PlayerNamesUnique db)
    (hr : get_club_by_name db g red = some rc)
    (hb : get_club_by_name db g blue = some bc)
    (hs : (transfer_player db g p red blue f).1 = true) :
    player_club_ref (transfer_player db g p red blue f).2 g p = some bc.id := by
  have hstate := transfer_state_eq hr hb hs
  have hany := ((transfer_success_iff_raw hr hb).mp hs).2
  have href := (player_any_iff_ref hpn).mp hany
  rw [hstate]
  simp only [player_club_ref] at href ⊢
  rw [find?_map_eq]
  · cases hfind : db.players.find? (fun r => r.guildId == g && r.name == p) with
    | none => rw [hfind] at href; exact absurd href (by simp)
    | some pl =>
      rw [hfind] at href
      have hcid : pl.clubId = some rc.id := href
      have hpred := List.find?_some hfind
      simp only [Bool.and_eq_true, beq_iff_eq] at hpred
      simp [hpred.1, hpred.2, hcid]
  · intro a
    by_cases hcond : (a.guildId == g && a.name == p && a.clubId == some rc.id) = true <;>
      simp [hcond]

theorem transfer_fail_of_missing {db : DB} {g : Int} {p red blue : String}
    {f : ℚ}
    (h : get_club_by_name db g red = none ∨ get_club_by_name db g blue = none) :
    transfer_player db g p red blue f = (false, db) := by
  simp only [transfer_player]
  rcases h with h | h
  · rw [h]
  · rw [h]
    cases get_club_by_name db g red <;> rfl

/-- Concrete store with one club and one player assigned to it. -/
def dbOneClub : DB :=
  { emptyDB with
    clubs := [⟨0, 1, "A", 100⟩]
    players := [⟨0, 1, "P", some 0, 10, "Forward", 25, 900⟩]
    nextClubId := 1, nextPlayerId := 1 }

/-- Concrete store with two clubs and one player assigned to the first. -/
def dbTwoClubs : DB :=
  { emptyDB with
    clubs := [⟨0, 1, "A", 100⟩, ⟨1, 1, "B", 50⟩]
    players := [⟨0, 1, "P", some 0, 10, "Forward", 25, 900⟩]
    nextClubId := 2, nextPlayerId := 1 }

/-- C1 counterexample: taking Red = Blue = "A" with fee 50, the transfer
call succeeds (the player is in "A" and the budget 100 covers the fee),
but the club's budget afterwards is still 100, not 100 + 50, so the
claimed budget increase of the source club fails when the two club
arguments coincide. -/
theorem transfer_same_club_budget_cex :
    (transfer_player dbOneClub 1 "P" "A" "A" 50).1 = true ∧
    get_club_budget dbOneClub 1 "A" = some 100 ∧
    get_club_budget (transfer_player dbOneClub 1 "P" "A" "A" 50).2 1 "A"
      ≠ some (100 + 50) := by
  refine ⟨by decide, by decide, ?_⟩
  have h : get_club_budget (transfer_player dbOneClub 1 "P" "A" "A" 50).2 1 "A"
      = some (100 + 50 - 50) := rfl
  rw [h]
  intro hc
  rw [Option.some_inj] at hc
  norm_num at hc

/-- C1 (amended: the budget postcondition needs the source and
destination club distinct).  For every pair of clubs, a transfer
succeeds iff both clubs exist, the destination budget covers the fee,
and the player is currently assigned to the source club.  After a
success with distinct clubs the player's club reference is the
destination club, the source budget grew by the fee and the destination
budget shrank by it; after a success with source = destination the
single club's budget is unchanged.  The hypotheses ClubIdsUnique and
PlayerNamesUnique embed the schema's PRIMARY KEY and
UNIQUE(guild_id, name) constraints. -/
theorem transfer_success_iff_and_effect (db : DB) (g : Int)
    (p red blue : String) (f : ℚ)
    (hids : ClubIdsUnique db) (hpn : PlayerNamesUnique db) :
    ((transfer_player db g p red blue f).1 = true ↔
      ∃ rc bc, get_club_by_name db g red = some rc ∧
        get_club_by_name db g blue = some bc ∧
        f ≤ bc.budget ∧ player_club_ref db g p = some rc.id) ∧
    (∀ rc bc, red ≠ blue → (transfer_player db g p red blue f).1 = true →
      get_club_by_name db g red = some rc →
      get_club_by_name db g blue = some bc →
      player_club_ref (transfer_player db g p red blue f).2 g p = some bc.id ∧
      get_club_budget (transfer_player db g p red blue f).2 g red
        = some (rc.budget + f) ∧
      get_club_budget (transfer_player db g p red blue f).2 g blue
        = some (bc.budget - f)) ∧
    (∀ rc, red = blue → (transfer_player db g p red blue f).1 = true →
      get_club_by_name db g red = some rc →
      player_club_ref (transfer_player db g p red blue f).2 g p = some rc.id ∧
      get_club_budget (transfer_player db g p red blue f).2 g red
        = some rc.budget) := by
  refine ⟨⟨?_, ?_⟩, ?_, ?_⟩
  · intro hs
    cases hr : get_club_by_name db g red with
    | none =>
      rw [transfer_fail_of_missing (Or.inl hr)] at hs
      exact absurd hs (by simp)
    | some rc =>
      cases hb : get_club_by_name db g blue with
      | none =>
        rw [transfer_fail_of_missing (Or.inr hb)] at hs
        exact absurd hs (by simp)
      | some bc =>
        obtain ⟨hle, hany⟩ := (transfer_success_iff_raw hr hb).mp hs
        exact ⟨rc, bc, rfl, rfl, hle, (player_any_iff_ref hpn).mp hany⟩
  · rintro ⟨rc, bc, hr, hb, hle, href⟩
    exact (transfer_success_iff_raw hr hb).mpr
      ⟨hle, (player_any_iff_ref hpn).mpr href⟩
  · intro rc bc hne hs hr hb
    obtain ⟨h1, h2⟩ := transfer_budget_after hids hne hr hb hs
    exact ⟨transfer_player_ref_after hpn hr hb hs, h1, h2⟩
  · intro rc hrb hs hr
    have hb : get_club_by_name db g blue = some rc := hrb ▸ hr
    refine ⟨transfer_player_ref_after hpn hr hb hs, ?_⟩
    rw [transfer_state_eq hr hb hs]
    simp only [get_club_by_name] at hr
    simp only [get_club_budget, get_club_by_name]
    rw [find?_map_eq _ _ _
        (fun a => pred_budget_update g red rc.id (fun c => c.budget - f) a),
      find?_map_eq _ _ _
        (fun a => pred_budget_update g red rc.id (fun c => c.budget + f) a),
      hr]
    simp only [List.map_map, Option.map_map, Option.map_some]
    simp [add_sub_cancel_right]

/-- Witness for the amended C1 theorem at a concrete store: the transfer
of "P" from "A" to "B" for a fee of 50 succeeds. -/
theorem transfer_success_iff_and_effect_witness :
    (transfer_player dbTwoClubs 1 "P" "A" "B" 50).1 = true :=
  ((transfer_success_iff_and_effect dbTwoClubs 1 "P" "A" "B" 50 (by decide)
      (by decide)).1).mpr
    ⟨⟨0, 1, "A", 100⟩, ⟨1, 1, "B", 50⟩, by decide, by decide, by decide, by decide⟩

/-- C2 counterexample: the code never checks the sign of the fee.  With
a fee of -100 and every other precondition satisfied, the transfer call
succeeds and mutates the store (the player moves from club 0 to club 1),
while the claim demands rejection with no mutation. -/
theorem transfer_negative_fee_cex :
    ((-100 : ℚ) < 0) ∧
    (transfer_player dbTwoClubs 1 "P" "A" "B" (-100)).1 = true ∧
    player_club_ref dbTwoClubs 1 "P" = some 0 ∧
    player_club_ref (transfer_player dbTwoClubs 1 "P" "A" "B" (-100)).2 1 "P"
      = some 1 :=
  ⟨by decide, by decide, by decide, by decide⟩

/-- C2 (amended: the fee-sign precondition is dropped — the code does
not check it).  If either club is missing, the destination club's
budget is below the fee, or the player is not currently assigned to the
source club, then transfer_player reports failure and the store is
exactly as before the call. -/
theorem transfer_reject_no_mutation (db : DB) (g : Int)
    (p red blue : String) (f : ℚ) (hpn : PlayerNamesUnique db)
    (h : get_club_by_name db g red = none ∨ get_club_by_name db g blue = none ∨
      (∃ bc, get_club_by_name db g blue = some bc ∧ bc.budget < f) ∨
      (∃ rc, get_club_by_name db g red = some rc ∧
        player_club_ref db g p ≠ some rc.id)) :
    transfer_player db g p red blue f = (false, db) := by
  rcases h with h | h | ⟨bc, hb, hlt⟩ | ⟨rc, hr, href⟩
  · exact transfer_fail_of_missing (Or.inl h)
  · exact transfer_fail_of_missing (Or.inr h)
  · cases hr : get_club_by_name db g red with
    | none => exact transfer_fail_of_missing (Or.inl hr)
    | some rc =>
      cases hres : (transfer_player db g p red blue f).1 with
      | false => exact transfer_fail_state hres
      | true =>
        obtain ⟨hle, -⟩ := (transfer_success_iff_raw hr hb).mp hres
        exact absurd hle (not_le.mpr hlt)
  · cases hb : get_club_by_name db g blue with
    | none => exact transfer_fail_of_missing (Or.inr hb)
    | some bc =>
      cases hres : (transfer_player db g p red blue f).1 with
      | false => exact transfer_fail_state hres
      | true =>
        obtain ⟨-, hany⟩ := (transfer_success_iff_raw hr hb).mp hres
        exact absurd ((player_any_iff_ref hpn).mp hany) href

/-- Witness for the amended C2 theorem: a fee of 1000 exceeds the
destination budget 50, so the call fails with the store unchanged. -/
theorem transfer_reject_no_mutation_witness :
    transfer_player dbTwoClubs 1 "P" "A" "B" 1000 = (false, dbTwoClubs) :=
  transfer_reject_no_mutation dbTwoClubs 1 "P" "A" "B" 1000 (by decide)
    (Or.inr (Or.inr (Or.inl ⟨⟨1, 1, "B", 50⟩, by decide, by decide⟩)))

/-- C3: for every successful transfer between two distinct clubs, the
sum of the source and destination budgets after the transfer equals the
sum before it.  ClubIdsUnique embeds the PRIMARY KEY constraint of the
clubs table. -/
theorem transfer_budget_conservation (db : DB) (g : Int)
    (p red blue : String) (f : ℚ) (rc bc : Club)
    (hids : ClubIdsUnique db) (hne : red ≠ blue)
    (hr : get_club_by_name db g red = some rc)
    (hb : get_club_by_name db g blue = some bc)
    (hs : (transfer_player db g p red blue f).1 = true) :
    ∃ rc' bc',
      get_club_by_name (transfer_player db g p red blue f).2 g red = some rc' ∧
      get_club_by_name (transfer_player db g p red blue f).2 g blue = some bc' ∧
      rc'.budget + bc'.budget = rc.budget + bc.budget := by
  obtain ⟨h1, h2⟩ := transfer_budget_after hids hne hr hb hs
  simp only [get_club_budget] at h1 h2
  cases hr' : get_club_by_name (transfer_player db g p red blue f).2 g red with
  | none => rw [hr'] at h1; exact absurd h1 (by simp)
  | some rc' =>
    cases hb' : get_club_by_name (transfer_player db g p red blue f).2 g blue with
    | none => rw [hb'] at h2; exact absurd h2 (by simp)
    | some bc' =>
      rw [hr'] at h1
      rw [hb'] at h2
      have h1' : rc'.budget = rc.budget + f := by simpa using h1
      have h2' : bc'.budget = bc.budget - f := by simpa using h2
      refine ⟨rc', bc', rfl, rfl, ?_⟩
      rw [h1', h2']
      ring

/-- Witness for the C3 theorem: after transferring "P" from "A" (budget
100) to "B" (budget 50) for 50, the two budgets still sum to 150. -/
theorem transfer_budget_conservation_witness :
    ∃ rc' bc',
      get_club_by_name (transfer_player dbTwoClubs 1 "P" "A" "B" 50).2 1 "A"
        = some rc' ∧
      get_club_by_name (transfer_player dbTwoClubs 1 "P" "A" "B" 50).2 1 "B"
        = some bc' ∧
      rc'.budget + bc'.budget = (100 : ℚ) + 50 :=
  transfer_budget_conservation dbTwoClubs 1 "P" "A" "B" 50 ⟨0, 1, "A", 100⟩
    ⟨1, 1, "B", 50⟩ (by decide) (by decide) (by decide) (by decide) (by decide)

/-- C4: creating a club with a fresh (community, name) pair succeeds and
the club listing then contains exactly one entry with that name and
budget; a second creation with the same pair fails and leaves the whole
store unchanged. -/
theorem create_club_unique_listing (db : DB) (g : Int) (n : String)
    (b b' : ℚ) (h : get_club_by_name db g n = none) :
    (create_club db g n b).1 = true ∧
    (get_clubs (create_club db g n b).2 g).countP
      (fun c => c.name == n && c.budget == b) = 1 ∧
    (create_club (create_club db g n b).2 g n b').1 = false ∧
    (create_club (create_club db g n b).2 g n b').2 = (create_club db g n b).2 := by
  simp only [get_club_by_name] at h
  have hforall := List.find?_eq_none.mp h
  have hany : db.clubs.any (fun c => c.guildId == g && c.name == n) = false := by
    cases hq : db.clubs.any (fun c => c.guildId == g && c.name == n) with
    | false => rfl
    | true =>
      obtain ⟨x, hx, hpx⟩ := List.any_eq_true.mp hq
      exact absurd hpx (hforall x hx)
  have hstate : create_club db g n b = (true, { db with
      clubs := db.clubs ++ [⟨db.nextClubId, g, n, b⟩]
      nextClubId := db.nextClubId + 1 }) := by
    simp [create_club, hany]
  have hany2 : ({ db with
      clubs := db.clubs ++ [⟨db.nextClubId, g, n, b⟩]
      nextClubId := db.nextClubId + 1 } : DB).clubs.any
        (fun c => c.guildId == g && c.name == n) = true := by
    apply List.any_eq_true.mpr
    exact ⟨⟨db.nextClubId, g, n, b⟩, by simp, by simp⟩
  refine ⟨by rw [hstate], ?_, ?_, ?_⟩
  · rw [hstate]
    simp only [get_clubs, countP_sortKeep, List.countP_filter, List.countP_append]
    have hold : db.clubs.countP
        (fun c => (c.name == n && c.budget == b) && c.guildId == g) = 0 := by
      apply List.countP_eq_zero.mpr
      intro c hc
      have hnc := hforall c hc
      simp only [Bool.and_eq_true, beq_iff_eq] at hnc ⊢
      intro hcontra
      exact hnc ⟨hcontra.2, hcontra.1.1⟩
    rw [hold]
    simp
  · rw [hstate]
    simp [create_club, hany2]
  · rw [hstate]
    simp [create_club, hany2]

/-- Witness for the C4 theorem: creating "A" in the empty store succeeds
and the listing contains exactly one entry named "A" with budget 100. -/
theorem create_club_unique_listing_witness :
    (create_club emptyDB 1 "A" 100).1 = true ∧
    (get_clubs (create_club emptyDB 1 "A" 100).2 1).countP
      (fun c => c.name == "A" && c.budget == 100) = 1 := by
  have h := create_club_unique_listing emptyDB 1 "A" 100 200 (by decide)
  exact ⟨h.1, h.2.1⟩

/-- C5: deleting an existing club succeeds, frees all of that club's
players (each appears in the player listing as a free agent, with a null
club reference and no joined club name) and removes the club from the
club listing; deleting an absent club fails and changes nothing.
ClubNamesUnique embeds the UNIQUE(guild_id, name) schema constraint. -/
theorem delete_club_spec (db : DB) (g : Int) (n : String)
    (hcn : ClubNamesUnique db) :
    (∀ c, get_club_by_name db g n = some c →
      (delete_club db g n).1 = true ∧
      (∀ c' ∈ get_clubs (delete_club db g n).2 g, c'.name ≠ n) ∧
      (∀ p ∈ db.players, p.clubId = some c.id → p.guildId = g →
        ({ p with clubId := none }, (none : Option String))
          ∈ get_all_players (delete_club db g n).2 g)) ∧
    (get_club_by_name db g n = none → delete_club db g n = (false, db)) := by
  constructor
  · intro c hc
    obtain ⟨hcm, hcg, hcn'⟩ := get_club_by_name_found hc
    have hstate : delete_club db g n = (true, { db with
        players := db.players.map (fun p =>
          if p.clubId == some c.id then { p with clubId := none } else p)
        clubs := db.clubs.filter (fun c' => c'.id != c.id) }) := by
      simp [delete_club, hc]
    refine ⟨by rw [hstate], ?_, ?_⟩
    · intro c' hc' hname
      rw [hstate] at hc'
      simp only [get_clubs, mem_sortKeep, List.mem_filter] at hc'
      obtain ⟨⟨hcmem, hidne⟩, hguild⟩ := hc'
      simp only [bne_iff_ne, ne_eq] at hidne
      simp only [beq_iff_eq] at hguild
      have : c' = c := by
        apply List.inj_on_of_nodup_map hcn hcmem hcm
        rw [hguild, hname, hcg, hcn']
      exact hidne (by rw [this])
    · intro p hp hpc hpg
      rw [hstate]
      simp only [get_all_players, mem_sortKeep]
      apply List.mem_map.mpr
      refine ⟨{ p with clubId := none }, ?_, ?_⟩
      · apply List.mem_filter.mpr
        refine ⟨?_, by simp [hpg]⟩
        apply List.mem_map.mpr
        exact ⟨p, hp, by simp [hpc]⟩
      · simp only [joinClubName]
        have hnone : ∀ x : Club, (some x.id == (none : Option Nat)) = false :=
          fun _ => rfl
        rw [List.find?_eq_none.mpr (fun x _ => by simp [hnone x])]
        rfl
  · intro h
    simp [delete_club, h]

/-- Witness for the C5 theorem: deleting club "A" from the two-club
store succeeds, the listing keeps no club named "A", and player "P"
reappears as a free agent. -/
theorem delete_club_spec_witness :
    (delete_club dbTwoClubs 1 "A").1 = true ∧
    (({ (⟨0, 1, "P", some 0, 10, "Forward", 25, 900⟩ : Player) with
        clubId := none }, (none : Option String))
      ∈ get_all_players (delete_club dbTwoClubs 1 "A").2 1) := by
  have h := (delete_club_spec dbTwoClubs 1 "A" (by decide)).1
    ⟨0, 1, "A", 100⟩ (by decide)
  exact ⟨h.1, h.2.2 ⟨0, 1, "P", some 0, 10, "Forward", 25, 900⟩ (by decide)
    (by decide) (by decide)⟩

/-- update_player_value: UPDATE players SET value = ? WHERE guild_id = ?
AND name = ?; returns rowcount > 0. -/
def update_player_value (db : DB) (g : Int) (n : String) (v : ℚ) : Bool × DB :=
  (db.players.any (fun p => p.guildId == g && p.name == n),
   { db with players := db.players.map (fun p =>
       if p.guildId == g && p.name == n then { p with value := v } else p) })

/-- get_club_players: the player listing join restricted to one club;
the WHERE clause c.name = ? filters out rows whose LEFT JOIN produced
NULL, so free agents never appear. -/
def get_club_players (db : DB) (g : Int) (clubName : String) :
    List (Player × Option String) :=
  sortKeep keepByValue
    (((db.players.filter (fun p => p.guildId == g)).map (joinClubName db)).filter
      (fun r => r.2 == some clubName))

/-- get_player_count: SELECT COUNT(*) FROM players WHERE club_id = ?
(no guild filter in the source). -/
def get_player_count (db : DB) (clubId : Nat) : Nat :=
  (db.players.filter (fun p => p.clubId == some clubId)).length

/-- get_top_players: the same SELECT as get_all_players with LIMIT ?. -/
def get_top_players (db : DB) (g : Int) (limit : Nat) :
    List (Player × Option String) :=
  (get_all_players db g).take limit

/-- Comparison for ORDER BY budget DESC on club rows paired with their
player count. -/
def keepByBudgetPair (y x : Club × Nat) : Bool := x.1.budget < y.1.budget

/-- get_richest_clubs: clubs of the guild with their player count
(COUNT(p.id) over the LEFT JOIN grouped by club), ORDER BY budget DESC
LIMIT ?. -/
def get_richest_clubs (db : DB) (g : Int) (limit : Nat) : List (Club × Nat) :=
  (sortKeep keepByBudgetPair
    ((db.clubs.filter (fun c => c.guildId == g)).map
      (fun c => (c, (db.players.filter (fun p => p.clubId == some c.id)).length)))).take
    limit

/-- Comparison for ORDER BY value DESC on bare player rows. -/
def keepByValueRow (y x : Player) : Bool := x.value < y.value

/-- Statistics record produced by get_club_stats: the club row combined
with the aggregate player statistics and the transfer counts. -/
structure ClubStats where
  club : Club
  player_count : Nat
  total_value : ℚ
  avg_value : ℚ
  highest_value : ℚ
  most_valuable : String
  transfers_in : Nat
  transfers_out : Nat
  deriving DecidableEq

/-- get_club_stats: None if the club is absent; otherwise COUNT, SUM,
AVG and MAX of the club's player values (each COALESCEd to 0 when there
are no players), the name of the most valuable player (the string None
when the club is empty), and the transfer counts into and out of the
club. -/
def get_club_stats (db : DB) (g : Int) (clubName : String) : Option ClubStats :=
  match get_club_by_name db g clubName with
  | none => none
  | some club =>
    let ps := db.players.filter (fun p => p.clubId == some club.id)
    let vals := ps.map (fun p => p.value)
    some
      { club := club
        player_count := ps.length
        total_value := vals.sum
        avg_value := if ps.length = 0 then 0 else vals.sum / (ps.length : ℚ)
        highest_value := (vals.max?).getD 0
        most_valuable :=
          match (sortKeep keepByValueRow ps).head? with
          | some q => q.name
          | none => "None"
        transfers_in :=
          (db.transfers.filter (fun t => t.guildId == g && t.toClub == clubName)).length
        transfers_out :=
          (db.transfers.filter (fun t => t.guildId == g && t.fromClub == clubName)).length }

/-- Statistics record produced by get_server_stats (the zero record is
also what the method returns when its try/except catches a failure). -/
structure ServerStats where
  total_clubs : Nat
  total_players : Nat
  upcoming_matches : Nat
  total_transfers : Nat
  total_value : ℚ
  deriving DecidableEq

/-- get_server_stats: per-guild row counts, the count of matches whose
minute-granular datetime is strictly after the current minute, and the
summed player market value. -/
def get_server_stats (db : DB) (g : Int) (now : Nat) : ServerStats :=
  { total_clubs := (db.clubs.filter (fun c => c.guildId == g)).length
    total_players := (db.players.filter (fun p => p.guildId == g)).length
    upcoming_matches := (db.matchRows.filter (fun m =>
      m.guildId == g && now / 60 < m.schedMin)).length
    total_transfers := (db.transfers.filter (fun t => t.guildId == g)).length
    total_value :=
      ((db.players.filter (fun p => p.guildId == g)).map (fun p => p.value)).sum }

/-- Result discriminator for a store call under the storage-failure
oracle: true when the call returned a python value, false when an
exception escaped to the caller. -/
def isResult : Except Unit α → Bool
  | Except.ok _ => true
  | Except.error _ => false

/-- create_club under a storage-failure oracle: the try/except catches
any exception and returns False. -/
def create_club_call (fail : Bool) (db : DB) (g : Int) (n : String) (b : ℚ) :
    Except Unit Bool :=
  if fail then Except.ok false else Except.ok (create_club db g n b).1

/-- delete_club under a storage-failure oracle: exceptions are caught
and reported as False. -/
def delete_club_call (fail : Bool) (db : DB) (g : Int) (n : String) :
    Except Unit Bool :=
  if fail then Except.ok false else Except.ok (delete_club db g n).1

/-- update_club_budget under a storage-failure oracle: exceptions are
caught and reported as False. -/
def update_club_budget_call (fail : Bool) (db : DB) (g : Int) (n : String)
    (b : ℚ) : Except Unit Bool :=
  if fail then Except.ok false else Except.ok (update_club_budget db g n b).1

/-- transfer_player under a storage-failure oracle: exceptions are
caught and reported as False. -/
def transfer_player_call (fail : Bool) (db : DB) (g : Int)
    (p red blue : String) (f : ℚ) : Except Unit Bool :=
  if fail then Except.ok false else Except.ok (transfer_player db g p red blue f).1

/-- get_clubs under a storage-failure oracle: exceptions are caught and
an empty list is returned. -/
def get_clubs_call (fail : Bool) (db : DB) (g : Int) : Except Unit (List Club) :=
  if fail then Except.ok [] else Except.ok (get_clubs db g)

/-- get_all_players under a storage-failure oracle: exceptions are
caught and an empty list is returned. -/
def get_all_players_call (fail : Bool) (db : DB) (g : Int) :
    Except Unit (List (Player × Option String)) :=
  if fail then Except.ok [] else Except.ok (get_all_players db g)

/-- get_transfer_history under a storage-failure oracle: exceptions are
caught and an empty list is returned. -/
def get_transfer_history_call (fail : Bool) (db : DB) (g : Int) (lim : Nat) :
    Except Unit (List TransferRec) :=
  if fail then Except.ok [] else Except.ok (get_transfer_history db g lim)

/-- get_club_by_name under a storage-failure oracle: exceptions are
caught and None is returned. -/
def get_club_by_name_call (fail : Bool) (db : DB) (g : Int) (n : String) :
    Except Unit (Option Club) :=
  if fail then Except.ok none else Except.ok (get_club_by_name db g n)

/-- add_player under a storage-failure oracle: exceptions are caught
and reported as False. -/
def add_player_call (fail : Bool) (db : DB) (g : Int) (n clubName : String)
    (v : ℚ) (pos : String) (age nowDay : Nat) : Except Unit Bool :=
  if fail then Except.ok false
  else Except.ok (add_player db g n clubName v pos age nowDay).1

/-- remove_player under a storage-failure oracle: exceptions are caught
and reported as False. -/
def remove_player_call (fail : Bool) (db : DB) (g : Int) (n : String) :
    Except Unit Bool :=
  if fail then Except.ok false else Except.ok (remove_player db g n).1

/-- update_player_value under a storage-failure oracle: exceptions are
caught and reported as False. -/
def update_player_value_call (fail : Bool) (db : DB) (g : Int) (n : String)
    (v : ℚ) : Except Unit Bool :=
  if fail then Except.ok false else Except.ok (update_player_value db g n v).1

/-- get_club_players under a storage-failure oracle: exceptions are
caught and an empty list is returned. -/
def get_club_players_call (fail : Bool) (db : DB) (g : Int) (clubName : String) :
    Except Unit (List (Player × Option String)) :=
  if fail then Except.ok [] else Except.ok (get_club_players db g clubName)

/-- get_player_count under a storage-failure oracle: exceptions are
caught and 0 is returned. -/
def get_player_count_call (fail : Bool) (db : DB) (clubId : Nat) :
    Except Unit Nat :=
  if fail then Except.ok 0 else Except.ok (get_player_count db clubId)

/-- create_match under a storage-failure oracle: exceptions are caught
and None is returned instead of the fresh rowid. -/
def create_match_call (fail : Bool) (db : DB) (g t1 t2 : Int) (schedMin : Nat)
    (description : String) : Except Unit (Option Nat) :=
  if fail then Except.ok none
  else Except.ok (create_match db g t1 t2 schedMin description).1

/-- get_upcoming_matches under a storage-failure oracle: exceptions are
caught and an empty list is returned. -/
def get_upcoming_matches_call (fail : Bool) (db : DB) (gOpt : Option Int)
    (now : Nat) : Except Unit (List MatchRow) :=
  if fail then Except.ok [] else Except.ok (get_upcoming_matches db gOpt now)

/-- log_transfer under a storage-failure oracle: the method returns None
in both the normal and the caught-exception path. -/
def log_transfer_call (fail : Bool) (db : DB) (g : Int)
    (playerName fromClub toClub : String) (fee : ℚ) (adminId : Int)
    (date : Nat) : Except Unit Unit :=
  if fail then Except.ok () else Except.ok ()

/-- get_club_stats under a storage-failure oracle: exceptions are caught
and None is returned. -/
def get_club_stats_call (fail : Bool) (db : DB) (g : Int) (clubName : String) :
    Except Unit (Option ClubStats) :=
  if fail then Except.ok none else Except.ok (get_club_stats db g clubName)

/-- get_top_players under a storage-failure oracle: exceptions are
caught and an empty list is returned. -/
def get_top_players_call (fail : Bool) (db : DB) (g : Int) (lim : Nat) :
    Except Unit (List (Player × Option String)) :=
  if fail then Except.ok [] else Except.ok (get_top_players db g lim)

/-- get_richest_clubs under a storage-failure oracle: exceptions are
caught and an empty list is returned. -/
def get_richest_clubs_call (fail : Bool) (db : DB) (g : Int) (lim : Nat) :
    Except Unit (List (Club × Nat)) :=
  if fail then Except.ok [] else Except.ok (get_richest_clubs db g lim)

/-- get_server_stats under a storage-failure oracle: exceptions are
caught and the all-zero statistics record is returned. -/
def get_server_stats_call (fail : Bool) (db : DB) (g : Int) (now : Nat) :
    Except Unit ServerStats :=
  if fail then Except.ok ⟨0, 0, 0, 0, 0⟩
  else Except.ok (get_server_stats db g now)

/-- mark_reminder_sent under a storage-failure oracle: the method
returns None in both the normal and the caught-exception path. -/
def mark_reminder_sent_call (fail : Bool) (db : DB) (matchId : Nat) :
    Except Unit Unit :=
  if fail then Except.ok () else Except.ok ()

/-- reset_all_data under a storage-failure oracle: unlike every other
method, its except-handler re-raises, so a storage failure escapes to
the caller. -/
def reset_all_data_call (fail : Bool) (db : DB) (g : Int) : Except Unit DB :=
  if fail then Except.error () else Except.ok (reset_all_data db g)

/-- C6 counterexample: on a storage failure, reset_all_data re-raises
instead of returning a result status, contradicting the claim that no
Store operation throws to its caller. -/
theorem reset_all_raises_cex :
    reset_all_data_call true emptyDB 1 = Except.error () ∧
    isResult (reset_all_data_call true emptyDB 1) = false := ⟨rfl, rfl⟩

/-- C6 (amended: resetAll is the exception).  Every Store operation
other than resetAll — club creation, deletion, budget update, lookup
and listing, player addition, removal, value update, transfer and the
player listings, match creation, the upcoming-matches and reminder
calls, the transfer log and history, and the three statistics reads —
returns a result status for every input and every storage-failure
outcome; resetAll returns a result only when the storage does not fail
and re-raises the storage exception when it does.  (Schema
initialisation is fatal at startup by design and is not a Store
operation.) -/
theorem store_calls_no_throw_except_reset (fail : Bool) (db : DB) (g : Int)
    (n p red blue clubName pos descr : String) (b f v : ℚ)
    (matchId lim clubId age nowDay sched date now : Nat) (t1 t2 adminId : Int)
    (gOpt : Option Int) :
    isResult (create_club_call fail db g n b) = true ∧
    isResult (delete_club_call fail db g n) = true ∧
    isResult (update_club_budget_call fail db g n b) = true ∧
    isResult (get_club_by_name_call fail db g n) = true ∧
    isResult (get_clubs_call fail db g) = true ∧
    isResult (add_player_call fail db g p clubName v pos age nowDay) = true ∧
    isResult (remove_player_call fail db g p) = true ∧
    isResult (update_player_value_call fail db g p v) = true ∧
    isResult (transfer_player_call fail db g p red blue f) = true ∧
    isResult (get_club_players_call fail db g clubName) = true ∧
    isResult (get_all_players_call fail db g) = true ∧
    isResult (get_player_count_call fail db clubId) = true ∧
    isResult (create_match_call fail db g t1 t2 sched descr) = true ∧
    isResult (get_upcoming_matches_call fail db gOpt now) = true ∧
    isResult (mark_reminder_sent_call fail db matchId) = true ∧
    isResult (log_transfer_call fail db g p red blue f adminId date) = true ∧
    isResult (get_transfer_history_call fail db g lim) = true ∧
    isResult (get_club_stats_call fail db g clubName) = true ∧
    isResult (get_top_players_call fail db g lim) = true ∧
    isResult (get_richest_clubs_call fail db g lim) = true ∧
    isResult (get_server_stats_call fail db g now) = true ∧
    isResult (reset_all_data_call false db g) = true ∧
    reset_all_data_call true db g = Except.error () := by
  cases fail <;>
    simp [create_club_call, delete_club_call, update_club_budget_call,
      get_club_by_name_call, get_clubs_call, add_player_call,
      remove_player_call, update_player_value_call, transfer_player_call,
      get_club_players_call, get_all_players_call, get_player_count_call,
      create_match_call, get_upcoming_matches_call, mark_reminder_sent_call,
      log_transfer_call, get_transfer_history_call, get_club_stats_call,
      get_top_players_call, get_richest_clubs_call, get_server_stats_call,
      reset_all_data_call, isResult]

theorem filter_eq_nil_of_none (p : α → Bool) (l : List α)
    (h : ∀ a ∈ l, p a = false) : l.filter p = [] := by
  induction l with
  | nil => rfl
  | cons a as ih =>
    rw [List.filter_cons_of_neg (by simp [h a (List.mem_cons_self a as)])]
    exact ih (fun b hb => h b (List.mem_cons_of_mem a hb))

theorem filter_filter_of_imp (p q : α → Bool) (l : List α)
    (h : ∀ a ∈ l, p a = true → q a = true) :
    (l.filter q).filter p = l.filter p := by
  induction l with
  | nil => rfl
  | cons a as ih =>
    have ih' := ih (fun b hb => h b (List.mem_cons_of_mem a hb))
    by_cases hq : q a = true
    · rw [List.filter_cons_of_pos hq]
      by_cases hp : p a = true
      · rw [List.filter_cons_of_pos hp, List.filter_cons_of_pos hp, ih']
      · rw [List.filter_cons_of_neg hp, List.filter_cons_of_neg hp, ih']
    · have hp : p a = false := by
        cases hpa : p a
        · rfl
        · exact absurd (h a (List.mem_cons_self a as) hpa) hq
      rw [List.filter_cons_of_neg (by simp [hq]),
        List.filter_cons_of_neg (by simp [hp]), ih']

theorem filter_swap (p q : α → Bool) (l : List α) :
    (l.filter q).filter p = (l.filter p).filter q := by
  induction l with
  | nil => rfl
  | cons a as ih =>
    by_cases hq : q a = true <;> by_cases hp : p a = true <;>
      simp [List.filter_cons, hq, hp, ih]

/-- Referential invariant of the schema: a non-null player club
reference points to a club row of the same community. -/
abbrev ClubRefsSameGuild (db : DB) : Prop :=
  ∀ p ∈ db.players, ∀ c ∈ db.clubs, p.clubId = some c.id → c.guildId = p.guildId

theorem reset_all_data_state (db : DB) (g : Int) :
    reset_all_data db g = { db with
      transfers := db.transfers.filter (fun t => !(t.guildId == g))
      matchRows := db.matchRows.filter (fun m => !(m.guildId == g))
      players := db.players.filter (fun p => !(p.guildId == g))
      clubs := db.clubs.filter (fun c => !(c.guildId == g))
      settings := db.settings.filter (fun s => !(s.guildId == g)) } := rfl

/-- C7: resetting community g deletes its transfers, matches, players,
clubs and settings rows, so every read for g afterwards returns an
empty collection, and every read for a different community g' is
unchanged.  Hypotheses: g ≠ 0 because the python guard `if guild_id:`
treats the id 0 like None (community ids are nonzero chat-server ids),
and ClubRefsSameGuild embeds the schema invariant that a player's club
reference stays inside its own community. -/
theorem reset_all_spec (db : DB) (g g' : Int) (now : Nat) (lim : Nat)
    (hg : g ≠ 0) (hg' : g' ≠ g) (href : ClubRefsSameGuild db) :
    get_clubs (reset_all_data db g) g = [] ∧
    get_all_players (reset_all_data db g) g = [] ∧
    get_upcoming_matches (reset_all_data db g) (some g) now = [] ∧
    get_transfer_history (reset_all_data db g) g lim = [] ∧
    settings_rows (reset_all_data db g) g = [] ∧
    get_clubs (reset_all_data db g) g' = get_clubs db g' ∧
    get_all_players (reset_all_data db g) g' = get_all_players db g' ∧
    (g' ≠ 0 → get_upcoming_matches (reset_all_data db g) (some g') now
      = get_upcoming_matches db (some g') now) ∧
    get_transfer_history (reset_all_data db g) g' lim
      = get_transfer_history db g' lim ∧
    settings_rows (reset_all_data db g) g' = settings_rows db g' := by
  have hcP : (reset_all_data db g).clubs
      = db.clubs.filter (fun c => !(c.guildId == g)) := rfl
  have hpP : (reset_all_data db g).players
      = db.players.filter (fun p => !(p.guildId == g)) := rfl
  have hmP : (reset_all_data db g).matchRows
      = db.matchRows.filter (fun m => !(m.guildId == g)) := rfl
  have htP : (reset_all_data db g).transfers
      = db.transfers.filter (fun t => !(t.guildId == g)) := rfl
  have hsP : (reset_all_data db g).settings
      = db.settings.filter (fun s => !(s.guildId == g)) := rfl
  have hdrop : ∀ (a : Int), (a == g') = true → (!(a == g)) = true := by
    intro a hpa
    simp only [beq_iff_eq] at hpa
    simp [hpa, hg']
  refine ⟨?_, ?_, ?_, ?_, ?_, ?_, ?_, ?_, ?_, ?_⟩
  · simp only [get_clubs, hcP]
    rw [filter_eq_nil_of_none _ _ (fun a ha => by
      have := (List.mem_filter.mp ha).2
      simpa using this)]
    rfl
  · simp only [get_all_players, hpP]
    rw [filter_eq_nil_of_none _ _ (fun a ha => by
      have := (List.mem_filter.mp ha).2
      simpa using this)]
    rfl
  · simp only [get_upcoming_matches, if_pos hg, hmP]
    rw [filter_eq_nil_of_none _ _ (fun a ha => by
      have := (List.mem_filter.mp (List.mem_filter.mp ha).1).2
      simpa using this)]
    rfl
  · simp only [get_transfer_history, htP]
    rw [filter_eq_nil_of_none _ _ (fun a ha => by
      have := (List.mem_filter.mp ha).2
      simpa using this)]
    simp [sortKeep]
  · simp only [settings_rows, hsP]
    rw [filter_eq_nil_of_none _ _ (fun a ha => by
      have := (List.mem_filter.mp ha).2
      simpa using this)]
  · simp only [get_clubs, hcP]
    rw [filter_filter_of_imp _ _ _ (fun a _ hpa => hdrop a.guildId hpa)]
  · simp only [get_all_players, hpP]
    rw [filter_filter_of_imp _ _ _ (fun a _ hpa => hdrop a.guildId hpa)]
    congr 1
    apply List.map_congr_left
    intro p hp
    obtain ⟨hpm, hpg⟩ := List.mem_filter.mp hp
    simp only [beq_iff_eq] at hpg
    simp only [joinClubName, hcP]
    rw [find?_filter_eq _ _ _ (fun c hc hpc => by
      simp only [beq_iff_eq] at hpc
      have := href p hpm c hc hpc.symm
      simp [this, hpg, hg'])]
  · intro hg'0
    simp only [get_upcoming_matches, if_pos hg'0, hmP]
    rw [filter_swap (fun m : MatchRow => (now / 60 < m.schedMin : Bool))
      (fun m : MatchRow => !(m.guildId == g)) db.matchRows]
    rw [filter_filter_of_imp (fun m : MatchRow => m.guildId == g')
      (fun m : MatchRow => !(m.guildId == g))
      (db.matchRows.filter (fun m : MatchRow => (now / 60 < m.schedMin : Bool)))
      (fun a _ hpa => hdrop a.guildId hpa)]
  · simp only [get_transfer_history, htP]
    rw [filter_filter_of_imp _ _ _ (fun a _ hpa => hdrop a.guildId hpa)]
  · simp only [settings_rows, hsP]
    rw [filter_filter_of_imp _ _ _ (fun a _ hpa => hdrop a.guildId hpa)]

/-- Concrete two-community store used to witness the reset theorem. -/
def dbTwoGuilds : DB :=
  { emptyDB with
    clubs := [⟨0, 1, "A", 100⟩, ⟨1, 2, "C", 70⟩]
    players := [⟨0, 1, "P", some 0, 10, "Forward", 25, 900⟩,
                ⟨1, 2, "Q", some 1, 20, "Forward", 25, 900⟩]
    matchRows := [⟨0, 1, 7, 8, 10, "m", false⟩, ⟨1, 2, 7, 8, 10, "m", false⟩]
    transfers := [⟨0, 1, "P", "A", "A", 5, 9, 3⟩, ⟨1, 2, "Q", "C", "C", 5, 9, 3⟩]
    settings := [⟨0, 1, "k", "v"⟩, ⟨1, 2, "k", "v"⟩]
    nextClubId := 2, nextPlayerId := 2, nextMatchId := 2, nextTransferId := 2 }

/-- Witness for the C7 theorem: resetting community 1 of the
two-community store empties its club listing and leaves community 2's
club listing unchanged. -/
theorem reset_all_spec_witness :
    get_clubs (reset_all_data dbTwoGuilds 1) 1 = [] ∧
    get_clubs (reset_all_data dbTwoGuilds 1) 2 = get_clubs dbTwoGuilds 2 := by
  have h := reset_all_spec dbTwoGuilds 1 2 0 10 (by decide) (by decide) (by decide)
  exact ⟨h.1, h.2.2.2.2.2.1⟩

/-- Concrete store with one unsent match scheduled at minute 4. -/
def dbMatchAtFour : DB :=
  { emptyDB with matchRows := [⟨0, 1, 7, 8, 4, "m", false⟩], nextMatchId := 1 }

/-- C8 counterexample: at now = 0 the match scheduled at minute 4 is
exactly 4 minutes away and unsent; the scan selects it because the code
tests the inclusive band 4 <= diff <= 6, while the claimed window
requires strictly more than 4 minutes. -/
theorem reminder_boundary_cex :
    dueForReminder dbMatchAtFour 0 = [⟨0, 1, 7, 8, 4, "m", false⟩] ∧
    ¬ ((4 * 60 : Int) <
        ((⟨0, 1, 7, 8, 4, "m", false⟩ : MatchRow).schedMin * 60 : Int)
          - ((0 : Nat) : Int)) :=
  ⟨by decide, by decide⟩

/-- C8 (amended: the notification window is inclusive at both ends).
The scan selects a match iff its reminder flag is false and the time
until its scheduled instant is between 4 and 6 minutes inclusive; the
code tests 4 <= diff <= 6 on top of the upcoming-matches filter, which
the lower bound subsumes. -/
theorem dueForReminder_iff (db : DB) (now : Nat) (m : MatchRow) :
    m ∈ dueForReminder db now ↔
      m ∈ db.matchRows ∧ m.reminder_sent = false ∧
      4 * 60 ≤ (m.schedMin * 60 : Int) - (now : Int) ∧
      (m.schedMin * 60 : Int) - (now : Int) ≤ 6 * 60 := by
  simp only [dueForReminder, get_upcoming_matches, List.mem_filter, mem_sortKeep,
    Bool.and_eq_true, Bool.not_eq_true', decide_eq_true_eq]
  constructor
  · rintro ⟨⟨hm, -⟩, ⟨h1, h2⟩, h3⟩
    exact ⟨hm, h3, h1, h2⟩
  · rintro ⟨hm, hsent, h1, h2⟩
    refine ⟨⟨hm, ?_⟩, ⟨h1, h2⟩, hsent⟩
    omega

/-- C9: the reminder flag is one-way.  mark_reminder_sent is idempotent;
the scan never returns an already-sent match; marking (with any id) and
match creation preserve a true flag on every existing match row; and
every other store operation apart from deletion/reset leaves the matches
table untouched. -/
theorem reminder_flag_one_way (db : DB) (i : Nat) (now : Nat) (m : MatchRow)
    (g t1 t2 : Int) (sched : Nat) (descr n p red blue clubName pos : String)
    (b f v : ℚ) (age nowDay : Nat) (adminId : Int) (date : Nat) :
    mark_reminder_sent (mark_reminder_sent db i) i = mark_reminder_sent db i ∧
    (m ∈ dueForReminder db now → m.reminder_sent = false) ∧
    (m ∈ db.matchRows → m.reminder_sent = true →
      (∃ m' ∈ (mark_reminder_sent db i).matchRows,
        m'.id = m.id ∧ m'.reminder_sent = true) ∧
      m ∈ (create_match db g t1 t2 sched descr).2.matchRows) ∧
    (create_club db g n b).2.matchRows = db.matchRows ∧
    (delete_club db g n).2.matchRows = db.matchRows ∧
    (update_club_budget db g n b).2.matchRows = db.matchRows ∧
    (add_player db g p clubName v pos age nowDay).2.matchRows = db.matchRows ∧
    (remove_player db g p).2.matchRows = db.matchRows ∧
    (transfer_player db g p red blue f).2.matchRows = db.matchRows ∧
    (log_transfer db g p red blue f adminId date).matchRows = db.matchRows := by
  refine ⟨?_, ?_, ?_, ?_, ?_, ?_, ?_, ?_, ?_, ?_⟩
  · simp only [mark_reminder_sent]
    apply congrArg (fun l => ({ db with matchRows := l } : DB))
    rw [List.map_map]
    apply List.map_congr_left
    intro a _
    by_cases h : a.id = i <;> simp [h]
  · intro hm
    simp only [dueForReminder, List.mem_filter, Bool.and_eq_true,
      Bool.not_eq_true'] at hm
    exact hm.2.2
  · intro hm hsent
    constructor
    · refine ⟨if m.id == i then { m with reminder_sent := true } else m, ?_, ?_⟩
      · simp only [mark_reminder_sent]
        exact List.mem_map.mpr ⟨m, hm, rfl⟩
      · by_cases h : (m.id == i) = true <;> simp [h, hsent]
    · simp only [create_match]
      exact List.mem_append.mpr (Or.inl hm)
  · simp only [create_club]
    split <;> rfl
  · simp only [delete_club]
    split <;> rfl
  · rfl
  · simp only [add_player]
    split
    · rfl
    · split <;> rfl
  · rfl
  · simp only [transfer_player]
    split
    · split
      · rfl
      · split <;> rfl
    · rfl
  · rfl

/-- Witness for the C9 theorem: the match returned by the scan on the
concrete store indeed has its reminder flag false. -/
theorem reminder_flag_one_way_witness :
    (⟨0, 1, 7, 8, 4, "m", false⟩ : MatchRow).reminder_sent = false :=
  (reminder_flag_one_way dbMatchAtFour 0 0 ⟨0, 1, 7, 8, 4, "m", false⟩
    1 7 8 4 "m" "n" "p" "r" "b" "c" "pos" 0 0 0 25 0 9 3).2.1 (by decide)

/-- Operation alphabet of the budget-invariant claim: the three store
operations that touch club budgets. -/
inductive StoreOp where
  | createClub (g : Int) (n : String) (b : ℚ)
  | updateBudget (g : Int) (n : String) (b : ℚ)
  | transfer (g : Int) (p red blue : String) (f : ℚ)

/-- State reached by one store operation (the returned status bit is
dropped). -/
def applyOp (db : DB) : StoreOp → DB
  | StoreOp.createClub g n b => (create_club db g n b).2
  | StoreOp.updateBudget g n b => (update_club_budget db g n b).2
  | StoreOp.transfer g p red blue f => (transfer_player db g p red blue f).2

/-- Running a sequence of store operations from the freshly initialised
store. -/
def runOps (ops : List StoreOp) : DB := ops.foldl applyOp emptyDB

/-- Validity of the currency inputs of one operation: budgets written
and fees paid are non-negative. -/
def StoreOp.okInputs : StoreOp → Bool
  | StoreOp.createClub _ _ b => 0 ≤ b
  | StoreOp.updateBudget _ _ b => 0 ≤ b
  | StoreOp.transfer _ _ _ _ f => 0 ≤ f

/-- Invariant carried through the induction: distinct club rowids, all
below the AUTOINCREMENT counter, and non-negative budgets. -/
def BudgetInv (db : DB) : Prop :=
  ClubIdsUnique db ∧ (∀ c ∈ db.clubs, c.id < db.nextClubId) ∧
  (∀ c ∈ db.clubs, 0 ≤ c.budget)

/-- C10 counterexample: createClub followed by updateClubBudget with -5
is a legal operation sequence from the empty store and leaves a club
row with a negative budget; the code never validates budget signs. -/
theorem negative_budget_reachable_cex :
    (runOps [StoreOp.createClub 1 "A" 100,
      StoreOp.updateBudget 1 "A" (-5)]).clubs = [⟨0, 1, "A", -5⟩] ∧
    ((-5 : ℚ) < 0) := ⟨by decide, by decide⟩

theorem map_id_of_preserving (f : Club → Club) (hf : ∀ c, (f c).id = c.id)
    (l : List Club) :
    (l.map f).map (fun c => c.id) = l.map (fun c => c.id) := by
  rw [List.map_map]
  exact List.map_congr_left (fun c _ => hf c)

theorem budgetInv_create (db : DB) (g : Int) (n : String) (b : ℚ)
    (hb : 0 ≤ b) (h : BudgetInv db) : BudgetInv (create_club db g n b).2 := by
  obtain ⟨hids, hlt, hnn⟩ := h
  simp only [create_club]
  by_cases hany : (db.clubs.any fun c => c.guildId == g && c.name == n) = true
  · rw [if_pos hany]
    exact ⟨hids, hlt, hnn⟩
  · rw [if_neg hany]
    refine ⟨?_, ?_, ?_⟩
    · simp only [ClubIdsUnique, List.map_append, List.map_cons, List.map_nil]
      apply List.Nodup.append hids (List.nodup_singleton _)
      intro x hx1 hx2
      simp only [List.mem_singleton] at hx2
      obtain ⟨c, hc, hcid⟩ := List.mem_map.mp hx1
      subst hx2
      exact absurd (hcid ▸ hlt c hc) (lt_irrefl _)
    · intro c hc
      rcases List.mem_append.mp hc with hc | hc
      · exact Nat.lt_succ_of_lt (hlt c hc)
      · simp only [List.mem_singleton] at hc
        subst hc
        exact Nat.lt_succ_self _
    · intro c hc
      rcases List.mem_append.mp hc with hc | hc
      · exact hnn c hc
      · simp only [List.mem_singleton] at hc
        subst hc
        exact hb

theorem budgetInv_update (db : DB) (g : Int) (n : String) (b : ℚ)
    (hb : 0 ≤ b) (h : BudgetInv db) :
    BudgetInv (update_club_budget db g n b).2 := by
  obtain ⟨hids, hlt, hnn⟩ := h
  simp only [update_club_budget]
  have hpres : ∀ c : Club,
      ((if c.guildId == g && c.name == n then { c with budget := b } else c) : Club).id
        = c.id := by
    intro c
    by_cases hc : (c.guildId == g && c.name == n) = true <;> simp [hc]
  refine ⟨?_, ?_, ?_⟩
  · simp only [ClubIdsUnique]
    rw [map_id_of_preserving _ hpres]
    exact hids
  · intro c' hc'
    obtain ⟨c, hc, rfl⟩ := List.mem_map.mp hc'
    rw [hpres c]
    exact hlt c hc
  · intro c' hc'
    obtain ⟨c, hc, rfl⟩ := List.mem_map.mp hc'
    by_cases hcond : (c.guildId == g && c.name == n) = true <;> simp [hcond]
    · exact hb
    · exact hnn c hc

theorem budgetInv_transfer (db : DB) (g : Int) (p red blue : String) (f : ℚ)
    (hf : 0 ≤ f) (h : BudgetInv db) :
    BudgetInv (transfer_player db g p red blue f).2 := by
  obtain ⟨hids, hlt, hnn⟩ := h
  cases hres : (transfer_player db g p red blue f).1 with
  | false =>
    rw [transfer_fail_state hres]
    exact ⟨hids, hlt, hnn⟩
  | true =>
    cases hr : get_club_by_name db g red with
    | none =>
      rw [transfer_fail_of_missing (Or.inl hr)] at hres
      exact absurd hres (by simp)
    | some rc =>
    cases hb : get_club_by_name db g blue with
    | none =>
      rw [transfer_fail_of_missing (Or.inr hb)] at hres
      exact absurd hres (by simp)
    | some bc =>
      have hstate := transfer_state_eq hr hb hres
      obtain ⟨hle, -⟩ := (transfer_success_iff_raw hr hb).mp hres
      obtain ⟨hbcm, -, -⟩ := get_club_by_name_found hb
      rw [hstate]
      have hpres1 : ∀ c : Club,
          ((if c.id == rc.id then { c with budget := c.budget + f } else c) : Club).id
            = c.id := by
        intro c
        by_cases hc : (c.id == rc.id) = true <;> simp [hc]
      have hpres2 : ∀ c : Club,
          ((if c.id == bc.id then { c with budget := c.budget - f } else c) : Club).id
            = c.id := by
        intro c
        by_cases hc : (c.id == bc.id) = true <;> simp [hc]
      refine ⟨?_, ?_, ?_⟩
      · simp only [ClubIdsUnique]
        rw [map_id_of_preserving _ hpres2, map_id_of_preserving _ hpres1]
        exact hids
      · intro c' hc'
        obtain ⟨c1, hc1, rfl⟩ := List.mem_map.mp hc'
        obtain ⟨c, hc, rfl⟩ := List.mem_map.mp hc1
        rw [hpres2, hpres1]
        exact hlt c hc
      · intro c' hc'
        obtain ⟨c1, hc1, rfl⟩ := List.mem_map.mp hc'
        obtain ⟨c, hc, rfl⟩ := List.mem_map.mp hc1
        by_cases h2 : c.id = bc.id
        · have hcbc : c = bc := List.inj_on_of_nodup_map hids hc hbcm h2
          by_cases h1 : c.id = rc.id
          · simp only [beq_iff_eq, h1, h2, if_true]
            simp [h2.symm ▸ h1.symm]
            have := hnn c hc
            linarith
          · simp only [beq_iff_eq, h1, if_false, if_neg h1]
            simp [h2]
            have hble : f ≤ c.budget := by rw [hcbc]; exact hle
            linarith
        · by_cases h1 : c.id = rc.id
          · simp only [beq_iff_eq, if_pos h1]
            simp [h2]
            have := hnn c hc
            linarith
          · simp only [beq_iff_eq, if_neg h1]
            simp [h2]
            exact hnn c hc

theorem budgetInv_applyOp (db : DB) (op : StoreOp) (hop : op.okInputs = true)
    (h : BudgetInv db) : BudgetInv (applyOp db op) := by
  cases op with
  | createClub g n b =>
    exact budgetInv_create db g n b
      (by simpa [StoreOp.okInputs, decide_eq_true_eq] using hop) h
  | updateBudget g n b =>
    exact budgetInv_update db g n b
      (by simpa [StoreOp.okInputs, decide_eq_true_eq] using hop) h
  | transfer g p red blue f =>
    exact budgetInv_transfer db g p red blue f
      (by simpa [StoreOp.okInputs, decide_eq_true_eq] using hop) h

theorem budgetInv_foldl (ops : List StoreOp) :
    ∀ db, BudgetInv db → (∀ op ∈ ops, op.okInputs = true) →
      BudgetInv (ops.foldl applyOp db) := by
  induction ops with
  | nil =>
    intro db h _
    simpa using h
  | cons op rest ih =>
    intro db h hops
    simp only [List.foldl_cons]
    exact ih _ (budgetInv_applyOp db op (hops op (List.mem_cons_self op rest)) h)
      (fun o ho => hops o (List.mem_cons_of_mem op ho))

/-- C10 (amended: the currency inputs must be non-negative, which the
code does not enforce).  Starting from the empty store, any sequence of
createClub, updateClubBudget and transferPlayer operations whose
written budgets and paid fees are non-negative keeps every club row's
budget non-negative after every prefix. -/
theorem budgets_nonneg_of_valid_inputs (ops : List StoreOp)
    (h : ops.all StoreOp.okInputs = true) :
    ∀ c ∈ (runOps ops).clubs, 0 ≤ c.budget := by
  have hinv : BudgetInv emptyDB := by
    refine ⟨?_, ?_, ?_⟩ <;> simp [emptyDB, ClubIdsUnique]
  exact (budgetInv_foldl ops emptyDB hinv
    (fun op ho => List.all_eq_true.mp h op ho)).2.2

/-- Witness for the amended C10 theorem: after creating club "A" with
budget 100 the resulting row's budget is non-negative. -/
theorem budgets_nonneg_of_valid_inputs_witness :
    (0 : ℚ) ≤ (⟨0, 1, "A", 100⟩ : Club).budget :=
  budgets_nonneg_of_valid_inputs [StoreOp.createClub 1 "A" 100] (by decide)
    ⟨0, 1, "A", 100⟩ (by decide)

end FootballBot
